import Mathlib

set_option linter.unusedVariables false

/-!
Shallow embedding of the MelodyFlow piano-roll editor (React/TypeScript).
Numbers held in JavaScript `number` variables are modelled as rationals (ℚ);
all the arithmetic exercised here (sums, differences, divisions, `Math.round`,
`Math.min`/`Math.max` clamps) is exact on the inputs that occur, so ℚ is a
faithful idealization.  DOM, visual styling and the external collaborators
(Web Audio decode, the Gemini network call, JSON parsing) are outside the
embedding; the pure state transitions the handlers perform are embedded
directly from the source.
-/

namespace Melodyne

/-- MIN MIDI pitch from src/constants.ts: `export const MIN_MIDI = 21; // A0`. -/
def MIN_MIDI : ℤ := 21

/-- MAX MIDI pitch from src/constants.ts: `export const MAX_MIDI = 108; // C8`. -/
def MAX_MIDI : ℤ := 108

/-- Default horizontal zoom from src/constants.ts (100 px per second). -/
def DEFAULT_ZOOM_X : ℚ := 100

/-- Default vertical zoom from src/constants.ts (24 px per semitone). -/
def DEFAULT_ZOOM_Y : ℚ := 24

/-- The `Note` interface from src/types.ts.  The optional `selected` flag is
modelled as a `Bool` (absent is indistinguishable from `false` in every use
site: `n.selected` in boolean position). -/
structure Note where
  id : String
  midi : ℚ
  startTime : ℚ
  duration : ℚ
  velocity : ℚ
  selected : Bool
  deriving DecidableEq

/-- The `AudioAnalysisResult` interface from src/types.ts. -/
structure AudioAnalysisResult where
  key : String
  scale : String
  bpm : ℚ
  notes : List Note
  deriving DecidableEq

/-- The `ToolMode` enum from src/types.ts. -/
inductive ToolMode where
  | POINTER
  | PENCIL
  | CUT
  | ZOOM
  deriving DecidableEq

/-- The `ViewState` interface from src/types.ts. -/
structure ViewState where
  zoomX : ℚ
  zoomY : ℚ
  scrollX : ℚ
  scrollY : ℚ
  deriving DecidableEq

/-- The drag state kept by `PianoRoll` (src/components/PianoRoll.tsx):
`{ id, startX, startY, originalTime, originalMidi }`. -/
structure DragState where
  id : String
  startX : ℚ
  startY : ℚ
  originalTime : ℚ
  originalMidi : ℚ
  deriving DecidableEq

/-- The state of the `App` component (src/App.tsx).  `audioContext` and
`sourceNode` record only presence of the corresponding handles;
`audioBuffer` is modelled by its one observed attribute, `duration` (s);
`animationFrame` records whether a redraw tick is scheduled
(`requestAnimationFrame` sets it, `cancelAnimationFrame` clears it). -/
structure AppState where
  audioContext : Bool
  audioBuffer : Option ℚ
  fileName : Option String
  isAnalyzing : Bool
  loadingMessage : String
  analysis : Option AudioAnalysisResult
  isPlaying : Bool
  currentTime : ℚ
  startTimeRef : ℚ
  sourceNode : Bool
  animationFrame : Bool
  deriving DecidableEq

/-! ## Transport logic (src/App.tsx, lines 84-157) -/

/-- `play` (src/App.tsx 84-109): returns unchanged when no buffer or no
context is loaded; otherwise creates a source node and captures
`startTimeRef = audioContext.currentTime - offset` with `offset = currentTime`,
then sets `isPlaying`.  `hwNow` is the hardware clock reading
`audioContext.currentTime`. -/
def play (s : AppState) (hwNow : ℚ) : AppState :=
  if s.audioBuffer.isNone || !s.audioContext then s
  else
    { s with
      startTimeRef := hwNow - s.currentTime
      sourceNode := true
      isPlaying := true }

/-- `stop` (src/App.tsx 111-120): stops and clears the source node, clears
`isPlaying`, and cancels the pending animation frame. -/
def stop (s : AppState) : AppState :=
  { s with sourceNode := false, isPlaying := false, animationFrame := false }

/-- `togglePlayPause` (src/App.tsx 122-128). -/
def togglePlayPause (s : AppState) (hwNow : ℚ) : AppState :=
  if s.isPlaying then stop s else play s hwNow

/-- `handleStop` (src/App.tsx 130-133): `stop()` then `setCurrentTime(0)`. -/
def handleStop (s : AppState) : AppState :=
  { stop s with currentTime := 0 }

/-- One tick of the animation `loop` (src/App.tsx 136-150): while playing with
a context, computes `trackTime = now - startTimeRef`; at or past the buffer's
duration it calls `handleStop()`, otherwise it publishes `trackTime` as the
current time and re-arms the next frame. -/
def loop (s : AppState) (hwNow : ℚ) : AppState :=
  if s.isPlaying && s.audioContext then
    let trackTime := hwNow - s.startTimeRef
    match s.audioBuffer with
    | some dur =>
        if dur ≤ trackTime then handleStop s
        else { s with currentTime := trackTime, animationFrame := true }
    | none => { s with currentTime := trackTime, animationFrame := true }
  else s

/-! ## Note editing (src/App.tsx, lines 161-178) -/

/-- `updateNote` (src/App.tsx 161-167): writes the updated note back into the
analysis by id (`n.id === updatedNote.id ? updatedNote : n`); returns
unchanged when no analysis is loaded. -/
def updateNote (s : AppState) (updatedNote : Note) : AppState :=
  match s.analysis with
  | none => s
  | some a =>
      { s with
        analysis := some
          { a with
            notes := a.notes.map fun n =>
              if n.id = updatedNote.id then updatedNote else n } }

/-- `handleSelectionChange` (src/App.tsx 169-178): recomputes every note's
`selected` flag as `selectedIds.includes(n.id)`; returns unchanged when no
analysis is loaded. -/
def handleSelectionChange (s : AppState) (selectedIds : List String) : AppState :=
  match s.analysis with
  | none => s
  | some a =>
      { s with
        analysis := some
          { a with
            notes := a.notes.map fun n =>
              { n with selected := selectedIds.contains n.id } } }

/-! ## File upload (src/App.tsx, lines 45-81) -/

/-- A file chosen in the upload input: its observed attributes. -/
structure UploadFile where
  name : String
  size : ℕ
  deriving DecidableEq

/-- Observable effect of the synchronous prefix of `handleFileUpload`:
either the handler returned with no file, or it showed the oversize alert and
returned, or it proceeded into decode / base64 / network processing. -/
inductive UploadEffect where
  | noFile
  | alerted (msg : String)
  | processing
  deriving DecidableEq

/-- The alert text of the 50MB guard (src/App.tsx 52). -/
def oversizeAlert : String :=
  "El archivo es demasiado grande (>50MB). Para grabaciones largas (hasta 30 min), por favor usa un formato comprimido como MP3."

/-- Synchronous prefix of `handleFileUpload` (src/App.tsx 45-58): no-op
without a file; alert and return (before any state change or processing) when
`file.size > 50 * 1024 * 1024`; otherwise set the file name, enter the
analyzing state and hand off to the asynchronous decode/encode/network
pipeline (external from here on). -/
def handleFileUpload (s : AppState) (file : Option UploadFile) :
    AppState × UploadEffect :=
  match file with
  | none => (s, .noFile)
  | some f =>
      if 50 * 1024 * 1024 < f.size then (s, .alerted oversizeAlert)
      else
        ({ s with
            fileName := some f.name
            isAnalyzing := true
            loadingMessage := "Decodificando datos de audio..." },
         .processing)

/-! ## Piano roll geometry and drag editing (src/components/PianoRoll.tsx) -/

/-- MIDI pitch of the i-th key row in the sidebar: rows are generated for
`i = 0 .. MAX_MIDI - MIN_MIDI` with `midi = MAX_MIDI - i`. -/
def keyRowMidi (i : ℕ) : ℤ := MAX_MIDI - (i : ℤ)

/-- Screen y of the top of the i-th sidebar key row: the inner div sits at
`top: -scrollY` and the rows, each of height `NOTE_HEIGHT = zoomY`, stack
downward from its top. -/
def keyRowScreenY (i : ℕ) (zoomY scrollY : ℚ) : ℚ :=
  -scrollY + (i : ℚ) * zoomY

/-- Screen y of pitch `p` on the pitch axis: the key row whose midi is `p`. -/
def pixelY (p : ℤ) (zoomY scrollY : ℚ) : ℚ :=
  keyRowScreenY (MAX_MIDI - p).toNat zoomY scrollY

/-- Canvas-space top of a note block:
`top = (MAX_MIDI - note.midi) * NOTE_HEIGHT`. -/
def noteTop (midi zoomY : ℚ) : ℚ := ((MAX_MIDI : ℚ) - midi) * zoomY

/-- Canvas-space left edge of a note block:
`left = note.startTime * PIXELS_PER_SECOND`. -/
def noteLeft (startTime zoomX : ℚ) : ℚ := startTime * zoomX

/-- `handleNoteMouseDown` (PianoRoll): with the pointer tool it records the
note's pre-drag time and pitch together with the pointer origin; with any
other tool no drag begins.  (It also replaces the selection with the clicked
note via `onSelectionChange([note.id])`, handled by `handleSelectionChange`.) -/
def handleNoteMouseDown (toolMode : ToolMode) (clientX clientY : ℚ)
    (note : Note) : Option DragState :=
  if toolMode = ToolMode.POINTER then
    some
      { id := note.id
        startX := clientX
        startY := clientY
        originalTime := note.startTime
        originalMidi := note.midi }
  else none

/-- `handleMouseMove` (PianoRoll): with an active drag and the pointer tool,
computes `dx, dy` from the pointer origin, `timeDelta = dx / PIXELS_PER_SECOND`
and `midiDelta = -Math.round(dy / NOTE_HEIGHT)`, clamps the new time to `≥ 0`
and the new midi into `[MIN_MIDI, MAX_MIDI]`, and hands the note found by the
drag's id, so updated, to `onNoteUpdate`.  Returns that argument (`none` when
no update is issued). -/
def handleMouseMove (dragState : Option DragState) (toolMode : ToolMode)
    (viewState : ViewState) (notes : List Note) (clientX clientY : ℚ) :
    Option Note :=
  match dragState with
  | none => none
  | some d =>
      if toolMode = ToolMode.POINTER then
        let dx := clientX - d.startX
        let dy := clientY - d.startY
        let timeDelta := dx / viewState.zoomX
        let midiDelta : ℤ := -(round (dy / viewState.zoomY))
        let newTime := max 0 (d.originalTime + timeDelta)
        let newMidi :=
          min (MAX_MIDI : ℚ) (max (MIN_MIDI : ℚ) (d.originalMidi + (midiDelta : ℚ)))
        match notes.find? (fun n => n.id == d.id) with
        | some n => some { n with startTime := newTime, midi := newMidi }
        | none => none
      else none

/-! ## Transcription service (src/services/geminiService.ts) -/

/-- A note object of the parsed service response. -/
structure GeminiNoteData where
  midi : ℚ
  startTime : ℚ
  duration : ℚ
  velocity : ℚ
  deriving DecidableEq

/-- The parsed JSON object of the service response.  Each field is `Option`:
`none` models the field being absent from the parsed object (for `notes`,
absent-or-not-an-array, on which `.map` throws a `TypeError`).  A present
`key`/`scale`/`bpm` still falls back when its value is JS-falsy — see
`jsOrString` / `jsOrNum`. -/
structure GeminiData where
  key : Option String
  scale : Option String
  bpm : Option ℚ
  notes : Option (List GeminiNoteData)
  deriving DecidableEq

/-- JavaScript `v || fallback` for an absent-or-string field: falls back when
the field is absent or its value is falsy (the empty string). -/
def jsOrString (v : Option String) (fallback : String) : String :=
  match v with
  | none => fallback
  | some s => if s = "" then fallback else s

/-- JavaScript `v || fallback` for an absent-or-number field: falls back when
the field is absent or its value is falsy (zero). -/
def jsOrNum (v : Option ℚ) (fallback : ℚ) : ℚ :=
  match v with
  | none => fallback
  | some x => if x = 0 then fallback else x

/-- Hydration of one received note (geminiService.ts 88-92): the core assigns
the synthetic id `note-<index>-<Date.now()>` and a cleared selection flag. -/
def hydrateNote (nowMs : ℕ) (i : ℕ) (n : GeminiNoteData) : Note :=
  { id := "note-" ++ toString i ++ "-" ++ toString nowMs
    midi := n.midi
    startTime := n.startTime
    duration := n.duration
    velocity := n.velocity
    selected := false }

/-- Result assembly of `analyzeAudioWithGemini` (geminiService.ts 85-99),
from the parsed response object onward (the network call and `JSON.parse` are
external).  `data.notes.map(...)` runs first and throws when `notes` is
missing or not an array, failing the whole call; then the JS `||` defaults
`data.key || "Desconocido"`, `data.scale || "Desconocido"` and
`data.bpm || 120` fall back to their literals when the field is absent or
its value is falsy.  `nowMs` stands for `Date.now()`. -/
def analyzeAudioWithGemini (nowMs : ℕ) (data : GeminiData) :
    Except String AudioAnalysisResult :=
  match data.notes with
  | none => .error "TypeError: data.notes.map is not a function"
  | some ns =>
      .ok
        { key := jsOrString data.key "Desconocido"
          scale := jsOrString data.scale "Desconocido"
          bpm := jsOrNum data.bpm 120
          notes := ns.enum.map fun p => hydrateNote nowMs p.1 p.2 }

/-! ## Theorems -/

/-- Claim C1: for an active pointer-tool drag begun on a note, a pointer move
updates that note to pitch `originalMidi + (-round(dy / zoomY))` and start
time `originalTime + dx / zoomX`, the pitch clamped into `[MIN_MIDI, MAX_MIDI]
= [21, 108]` and the time clamped into `[0, ∞)`. -/
theorem drag_update_correct (n : Note) (notes : List Note) (vs : ViewState)
    (sx sy cx cy : ℚ) (hx : 0 < vs.zoomX) (hy : 0 < vs.zoomY)
    (hfind : notes.find? (fun m => m.id == n.id) = some n) :
    handleMouseMove (handleNoteMouseDown ToolMode.POINTER sx sy n)
        ToolMode.POINTER vs notes cx cy =
      some { n with
        startTime := max 0 (n.startTime + (cx - sx) / vs.zoomX)
        midi := min (MAX_MIDI : ℚ)
          (max (MIN_MIDI : ℚ)
            (n.midi + ((-(round ((cy - sy) / vs.zoomY)) : ℤ) : ℚ))) } := by
  simp [handleMouseMove, handleNoteMouseDown, hfind]

/-- Witness for C1, the spec scenario: the note at startTime 5 s, midi 60,
dragged by (dx, dy) = (-50, 48) at zoomX = 100, zoomY = 24, lands at
startTime 4.5 s (= 9/2) and midi 58. -/
theorem drag_update_correct_witness :
    handleMouseMove
        (handleNoteMouseDown ToolMode.POINTER 500 1152
          ⟨"note-0-0", 60, 5, 2, 4/5, false⟩)
        ToolMode.POINTER ⟨100, 24, 0, 0⟩
        [⟨"note-0-0", 60, 5, 2, 4/5, false⟩] 450 1200 =
      some ⟨"note-0-0", 58, 9/2, 2, 4/5, false⟩ := by
  have h := drag_update_correct ⟨"note-0-0", 60, 5, 2, 4/5, false⟩
    [⟨"note-0-0", 60, 5, 2, 4/5, false⟩] ⟨100, 24, 0, 0⟩
    500 1152 450 1200 (by norm_num) (by norm_num) (by rfl)
  rw [h]
  simp only [Option.some.injEq, Note.mk.injEq]
  norm_num [MIN_MIDI, MAX_MIDI, round_eq]

/-- The screen y of a pitch row, computed from the sidebar layout, equals
`(MAX_MIDI - p) * zoomY - scrollY`. -/
lemma pixelY_eq (r : ℤ) (z s : ℚ) (hr : r ≤ MAX_MIDI) :
    pixelY r z s = ((MAX_MIDI : ℚ) - (r : ℚ)) * z - s := by
  have h0 : (0 : ℤ) ≤ MAX_MIDI - r := sub_nonneg.mpr hr
  have h1 : (((MAX_MIDI - r).toNat : ℕ) : ℚ) = (MAX_MIDI : ℚ) - (r : ℚ) := by
    have h2 := Int.toNat_of_nonneg h0
    exact_mod_cast congrArg (fun x : ℤ => (x : ℚ)) h2
  rw [pixelY, keyRowScreenY, h1]
  ring

/-- Claim C2: for pitches in `[21, 108]`, `zoomY > 0` and `scrollY ≥ 0`, the
vertical pixel coordinate of pitch `p` is `(108 - p) * zoomY - scrollY`, and
this mapping is strictly decreasing in the pitch (higher pitch higher on
screen). -/
theorem pixelY_formula_and_strict_anti (p q : ℤ) (zoomY scrollY : ℚ)
    (hp1 : MIN_MIDI ≤ p) (hp2 : p ≤ MAX_MIDI)
    (hq1 : MIN_MIDI ≤ q) (hq2 : q ≤ MAX_MIDI)
    (hz : 0 < zoomY) (hs : 0 ≤ scrollY) :
    pixelY p zoomY scrollY = ((MAX_MIDI : ℚ) - (p : ℚ)) * zoomY - scrollY ∧
    (p < q → pixelY q zoomY scrollY < pixelY p zoomY scrollY) := by
  refine ⟨pixelY_eq p zoomY scrollY hp2, fun hpq => ?_⟩
  rw [pixelY_eq q zoomY scrollY hq2, pixelY_eq p zoomY scrollY hp2]
  have hq : (p : ℚ) < (q : ℚ) := by exact_mod_cast hpq
  have := mul_lt_mul_of_pos_right (sub_lt_sub_left hq (MAX_MIDI : ℚ)) hz
  linarith

/-- Witness for C2: at zoomY = 24, scrollY = 0, pitch 60 sits at
(108 - 60) * 24 = 1152 px and pitch 61 sits strictly above it. -/
theorem pixelY_formula_and_strict_anti_witness :
    pixelY 60 24 0 = ((MAX_MIDI : ℚ) - (60 : ℚ)) * 24 - 0 ∧
    pixelY 61 24 0 < pixelY 60 24 0 :=
  ⟨(pixelY_formula_and_strict_anti 60 61 24 0 (by decide) (by decide)
      (by decide) (by decide) (by norm_num) (by norm_num)).1,
   (pixelY_formula_and_strict_anti 60 61 24 0 (by decide) (by decide)
      (by decide) (by decide) (by norm_num) (by norm_num)).2 (by decide)⟩

/-- Concrete notes used to instantiate theorems on concrete inputs. -/
def exNotes : List Note :=
  [⟨"a", 60, 5, 2, 4/5, false⟩, ⟨"b", 64, 1, 1, 1/2, true⟩,
   ⟨"c", 67, 2, 1, 1, false⟩]

/-- A concrete analysis result. -/
def exAnalysis : AudioAnalysisResult :=
  { key := "C Major", scale := "Major", bpm := 120, notes := exNotes }

/-- A concrete loaded, stopped app state over a 40-second buffer. -/
def exState : AppState :=
  { audioContext := true
    audioBuffer := some 40
    fileName := some "clip.mp3"
    isAnalyzing := false
    loadingMessage := ""
    analysis := some exAnalysis
    isPlaying := true
    currentTime := 0
    startTimeRef := 0
    sourceNode := true
    animationFrame := true }

/-- A playing state whose published position is 39.9 s, one tick from the end
of its 40-second buffer. -/
def autoStopExample : AppState :=
  { exState with currentTime := 399/10, startTimeRef := 0 }

/-- Counterexample to C3: when the animation loop hits the end of the track
(hardware time 40 with epoch 0 over the 40-second buffer), it calls
`handleStop()`, so the position is reset to 0 — it is not left at the last
computed value (the pre-tick position was 39.9 ≠ 0, and the computed track
time 40 ≠ 0). -/
theorem auto_stop_resets_counterexample :
    (loop autoStopExample 40).isPlaying = false ∧
    (loop autoStopExample 40).currentTime = 0 ∧
    autoStopExample.currentTime ≠ 0 ∧ (40 : ℚ) - autoStopExample.startTimeRef ≠ 0 := by
  norm_num [loop, handleStop, stop, autoStopExample, exState]

/-- Claim C3 (amended): on manual stop the playback position resets to 0, and
on automatic end-of-track stop the loop invokes the same manual-stop handler,
so the position is likewise reset to 0 (with playback stopped). -/
theorem stop_resets_time (s : AppState) (hwNow dur : ℚ)
    (hplay : s.isPlaying = true) (hctx : s.audioContext = true)
    (hbuf : s.audioBuffer = some dur) (hend : dur ≤ hwNow - s.startTimeRef) :
    (loop s hwNow).isPlaying = false ∧ (loop s hwNow).currentTime = 0 ∧
    (handleStop s).currentTime = 0 := by
  simp [loop, hplay, hctx, hbuf, hend, handleStop, stop]

/-- Witness for C3 (amended) at the concrete end-of-track state. -/
theorem stop_resets_time_witness :
    (loop autoStopExample 40).isPlaying = false ∧
    (loop autoStopExample 40).currentTime = 0 ∧
    (handleStop autoStopExample).currentTime = 0 :=
  stop_resets_time autoStopExample 40 40 rfl rfl rfl
    (by norm_num [autoStopExample, exState])

/-- Claim C4: playing from current time `t0` at hardware time `h0` captures
the epoch `startTimeRef = h0 - t0` and enters the playing state; a loop tick
at hardware time `h0 + d` computes elapsed `t0 + d` and, at or past the
buffer's duration, stops playback, while strictly before it publishes
`t0 + d` as the current time and stays playing. -/
theorem play_epoch_and_tick (s : AppState) (t0 h0 d dur : ℚ)
    (hbuf : s.audioBuffer = some dur) (hctx : s.audioContext = true)
    (ht : s.currentTime = t0) :
    (play s h0).startTimeRef = h0 - t0 ∧
    (play s h0).isPlaying = true ∧
    (dur ≤ t0 + d → (loop (play s h0) (h0 + d)).isPlaying = false) ∧
    (t0 + d < dur →
      (loop (play s h0) (h0 + d)).currentTime = t0 + d ∧
      (loop (play s h0) (h0 + d)).isPlaying = true) := by
  have hplay : play s h0 =
      { s with startTimeRef := h0 - s.currentTime, sourceNode := true,
               isPlaying := true } := by
    simp [play, hbuf, hctx]
  have harith : h0 + d - (h0 - s.currentTime) = t0 + d := by rw [ht]; ring
  rw [hplay]
  refine ⟨by rw [ht], rfl, ?_, ?_⟩
  · intro hend
    simp [loop, hbuf, hctx, harith, hend, handleStop, stop]
  · intro hlt
    simp [loop, hbuf, hctx, harith, not_le.mpr hlt]

/-- Witness for C4: from current time 5 over the 40-second buffer, play at
hardware time 100 sets the epoch to 95; the tick at 102 reports 7 and stays
playing, the tick at 140 stops playback. -/
theorem play_epoch_and_tick_witness :
    (play { exState with currentTime := 5 } 100).startTimeRef = 100 - 5 ∧
    (play { exState with currentTime := 5 } 100).isPlaying = true ∧
    (loop (play { exState with currentTime := 5 } 100) (100 + 2)).currentTime
      = 5 + 2 ∧
    (loop (play { exState with currentTime := 5 } 100) (100 + 40)).isPlaying
      = false := by
  obtain ⟨h1, h2, -, h4⟩ :=
    play_epoch_and_tick { exState with currentTime := 5 } 5 100 2 40 rfl rfl rfl
  obtain ⟨-, -, h5, -⟩ :=
    play_epoch_and_tick { exState with currentTime := 5 } 5 100 40 40 rfl rfl rfl
  exact ⟨h1, h2, (h4 (by norm_num)).1, h5 (by norm_num)⟩

/-- Claim C7: with no audio buffer loaded, `play` is a no-op: it returns the
state unchanged (playing flag, current time and all other fields included). -/
theorem play_noop_without_buffer (s : AppState) (hwNow : ℚ)
    (h : s.audioBuffer = none) : play s hwNow = s := by
  simp [play, h]

/-- Witness for C7 at a concrete bufferless state. -/
theorem play_noop_without_buffer_witness :
    play { exState with audioBuffer := none } 3
      = { exState with audioBuffer := none } :=
  play_noop_without_buffer { exState with audioBuffer := none } 3 rfl

/-- Claim C10: toggling play/pause while playing performs `stop()`: playback
stops, the pending redraw tick is cancelled, and the current time is left
unchanged, so a subsequent `play` captures its epoch from that same position
and resumes there; only `handleStop` resets the current time to 0. -/
theorem pause_keeps_position (s : AppState) (hwNow hwNow2 dur : ℚ)
    (hplay : s.isPlaying = true) (hbuf : s.audioBuffer = some dur)
    (hctx : s.audioContext = true) :
    togglePlayPause s hwNow = stop s ∧
    (togglePlayPause s hwNow).isPlaying = false ∧
    (togglePlayPause s hwNow).animationFrame = false ∧
    (togglePlayPause s hwNow).currentTime = s.currentTime ∧
    (play (togglePlayPause s hwNow) hwNow2).startTimeRef
      = hwNow2 - s.currentTime ∧
    (play (togglePlayPause s hwNow) hwNow2).isPlaying = true ∧
    (handleStop s).currentTime = 0 := by
  have ht : togglePlayPause s hwNow = stop s := by simp [togglePlayPause, hplay]
  rw [ht]
  refine ⟨rfl, rfl, rfl, rfl, ?_, ?_, rfl⟩ <;> simp [play, stop, hbuf, hctx]

/-- Witness for C10 at a playing state with position 7 s: pausing keeps 7, a
later play resumes with epoch 50 - 7, and the stop control resets to 0. -/
theorem pause_keeps_position_witness :
    togglePlayPause { exState with currentTime := 7 } 10
      = stop { exState with currentTime := 7 } ∧
    (togglePlayPause { exState with currentTime := 7 } 10).isPlaying = false ∧
    (togglePlayPause { exState with currentTime := 7 } 10).animationFrame
      = false ∧
    (togglePlayPause { exState with currentTime := 7 } 10).currentTime
      = ({ exState with currentTime := 7 } : AppState).currentTime ∧
    (play (togglePlayPause { exState with currentTime := 7 } 10) 50).startTimeRef
      = 50 - ({ exState with currentTime := 7 } : AppState).currentTime ∧
    (play (togglePlayPause { exState with currentTime := 7 } 10) 50).isPlaying
      = true ∧
    (handleStop { exState with currentTime := 7 }).currentTime = 0 :=
  pause_keeps_position { exState with currentTime := 7 } 10 50 40 rfl rfl rfl

/-- Claim C5: the selection operation replaces the selection wholesale — the
note list keeps its length, and position by position each note keeps its id
while its selection flag becomes true exactly when that id is a member of the
given id list. -/
theorem selection_replaced_wholesale (s : AppState) (a : AudioAnalysisResult)
    (ids : List String) (ha : s.analysis = some a) :
    ∃ a2, (handleSelectionChange s ids).analysis = some a2 ∧
      a2.notes.length = a.notes.length ∧
      ∀ (i : ℕ) (n n2 : Note), a.notes[i]? = some n → a2.notes[i]? = some n2 →
        n2.id = n.id ∧ (n2.selected = true ↔ n.id ∈ ids) := by
  refine ⟨{ a with notes := a.notes.map fun n =>
      { n with selected := ids.contains n.id } }, ?_, by simp, ?_⟩
  · simp [handleSelectionChange, ha]
  · intro i n n2 hn hn2
    rw [List.getElem?_map, hn] at hn2
    simp only [Option.map_some', Option.some.injEq] at hn2
    subst hn2
    exact ⟨rfl, by simp⟩

/-- Witness for C5: selecting ids ["a", "b"] over the concrete loaded state. -/
theorem selection_replaced_wholesale_witness :
    ∃ a2, (handleSelectionChange exState ["a", "b"]).analysis = some a2 ∧
      a2.notes.length = exAnalysis.notes.length ∧
      ∀ (i : ℕ) (n n2 : Note), exAnalysis.notes[i]? = some n → a2.notes[i]? = some n2 →
        n2.id = n.id ∧ (n2.selected = true ↔ n.id ∈ ["a", "b"]) :=
  selection_replaced_wholesale exState exAnalysis ["a", "b"] rfl

/-- Claim C6: writing an updated note back by identifier preserves the note
list's length and order (each position holds the updated note where the ids
match and the original note where they differ, so notes with a different id
are completely unchanged), and leaves the analysis result's key, scale and
bpm unchanged. -/
theorem updateNote_frame (s : AppState) (a : AudioAnalysisResult) (u : Note)
    (ha : s.analysis = some a) :
    ∃ a2, (updateNote s u).analysis = some a2 ∧
      a2.key = a.key ∧ a2.scale = a.scale ∧ a2.bpm = a.bpm ∧
      a2.notes.length = a.notes.length ∧
      (∀ (i : ℕ) (n : Note), a.notes[i]? = some n → n.id ≠ u.id → a2.notes[i]? = some n) ∧
      (∀ (i : ℕ) (n : Note), a.notes[i]? = some n → n.id = u.id → a2.notes[i]? = some u) := by
  refine ⟨{ a with notes := a.notes.map fun n =>
      if n.id = u.id then u else n }, ?_, rfl, rfl, rfl, by simp, ?_, ?_⟩
  · simp [updateNote, ha]
  · intro i n hn hne
    rw [List.getElem?_map, hn]
    simp [hne]
  · intro i n hn heq
    rw [List.getElem?_map, hn]
    simp [heq]

/-- Witness for C6: updating note "b" of the concrete analysis; note "a" at
position 0 is untouched and position 1 now holds the updated note. -/
theorem updateNote_frame_witness :
    ∃ a2, (updateNote exState ⟨"b", 65, 1, 1, 1/2, true⟩).analysis = some a2 ∧
      a2.key = exAnalysis.key ∧ a2.scale = exAnalysis.scale ∧
      a2.bpm = exAnalysis.bpm ∧
      a2.notes.length = exAnalysis.notes.length ∧
      (∀ (i : ℕ) (n : Note), exAnalysis.notes[i]? = some n →
        n.id ≠ ("b" : String) → a2.notes[i]? = some n) ∧
      (∀ (i : ℕ) (n : Note), exAnalysis.notes[i]? = some n →
        n.id = ("b" : String) → a2.notes[i]? = some ⟨"b", 65, 1, 1, 1/2, true⟩) :=
  updateNote_frame exState exAnalysis ⟨"b", 65, 1, 1, 1/2, true⟩ rfl

/-- Claim C8: an upload whose size exceeds 50MB (50 * 1024 * 1024 bytes) is
rejected synchronously: the handler returns the state unchanged (file name,
analysis result and audio buffer included) with the user-facing oversize
alert as its only effect — in particular it never reaches the
decode/encode/network processing stage. -/
theorem oversize_upload_rejected (s : AppState) (f : UploadFile)
    (h : 50 * 1024 * 1024 < f.size) :
    handleFileUpload s (some f) = (s, .alerted oversizeAlert) ∧
    (handleFileUpload s (some f)).2 ≠ UploadEffect.processing := by
  constructor
  · simp [handleFileUpload, h]
  · simp [handleFileUpload, h]

/-- Witness for C8: a 60MB file (60 * 1024 * 1024 bytes) is rejected with no
state change and no processing. -/
theorem oversize_upload_rejected_witness :
    handleFileUpload exState (some ⟨"big.wav", 60 * 1024 * 1024⟩)
      = (exState, .alerted oversizeAlert) ∧
    (handleFileUpload exState (some ⟨"big.wav", 60 * 1024 * 1024⟩)).2
      ≠ UploadEffect.processing :=
  oversize_upload_rejected exState ⟨"big.wav", 60 * 1024 * 1024⟩ (by norm_num)

/-- Claim C9: in the assembled analysis result, a missing key, scale or bpm
field of the parsed response falls back to "Desconocido", "Desconocido" and
120 respectively (per JS `||`, a present falsy value — the empty string, bpm
0 — also falls back; a present truthy value is passed through), whereas a
missing or non-array notes field makes the whole analysis call fail with an
error. -/
theorem gemini_fallbacks_and_notes_failure (nowMs : ℕ) (data : GeminiData) :
    (data.notes = none →
      ∃ e, analyzeAudioWithGemini nowMs data = .error e) ∧
    (∀ ns, data.notes = some ns →
      ∃ a, analyzeAudioWithGemini nowMs data = .ok a ∧
        (data.key = none → a.key = "Desconocido") ∧
        (data.scale = none → a.scale = "Desconocido") ∧
        (data.bpm = none → a.bpm = 120) ∧
        (data.key = some "" → a.key = "Desconocido") ∧
        (data.scale = some "" → a.scale = "Desconocido") ∧
        (data.bpm = some 0 → a.bpm = 120) ∧
        (∀ k, data.key = some k → k ≠ "" → a.key = k) ∧
        (∀ sc, data.scale = some sc → sc ≠ "" → a.scale = sc) ∧
        (∀ b, data.bpm = some b → b ≠ 0 → a.bpm = b)) := by
  constructor
  · intro h
    refine ⟨"TypeError: data.notes.map is not a function", ?_⟩
    simp [analyzeAudioWithGemini, h]
  · intro ns h
    refine ⟨{ key := jsOrString data.key "Desconocido"
              scale := jsOrString data.scale "Desconocido"
              bpm := jsOrNum data.bpm 120
              notes := ns.enum.map fun p => hydrateNote nowMs p.1 p.2 },
      ?_, ?_, ?_, ?_, ?_, ?_, ?_, ?_, ?_, ?_⟩
    · simp [analyzeAudioWithGemini, h]
    · intro hk; rw [hk]; rfl
    · intro hs; rw [hs]; rfl
    · intro hb; rw [hb]; rfl
    · intro hk; rw [hk]; rfl
    · intro hs; rw [hs]; rfl
    · intro hb; rw [hb]; simp [jsOrNum]
    · intro k hk hne; rw [hk]; simp [jsOrString, hne]
    · intro sc hs hne; rw [hs]; simp [jsOrString, hne]
    · intro b hb hne; rw [hb]; simp [jsOrNum, hne]

/-- Witness for C9: a response with no key/scale/bpm and an empty note array
yields the fallback literals; a response with a falsy present key ("") and
falsy present bpm (0) also falls back, per JS `||`; and a response missing
its notes array fails. -/
theorem gemini_fallbacks_and_notes_failure_witness :
    (∃ e, analyzeAudioWithGemini 0 ⟨none, none, none, none⟩ = .error e) ∧
    (∃ a, analyzeAudioWithGemini 0 ⟨none, none, none, some []⟩ = .ok a ∧
      a.key = "Desconocido" ∧ a.scale = "Desconocido" ∧ a.bpm = 120) ∧
    (∃ a, analyzeAudioWithGemini 0 ⟨some "", some "Minor", some 0, some []⟩
        = .ok a ∧
      a.key = "Desconocido" ∧ a.scale = "Minor" ∧ a.bpm = 120) := by
  refine ⟨?_, ?_, ?_⟩
  · exact (gemini_fallbacks_and_notes_failure 0 ⟨none, none, none, none⟩).1 rfl
  · obtain ⟨a, h1, h2, h3, h4, -⟩ :=
      (gemini_fallbacks_and_notes_failure 0 ⟨none, none, none, some []⟩).2 [] rfl
    exact ⟨a, h1, h2 rfl, h3 rfl, h4 rfl⟩
  · obtain ⟨a, h1, -, -, -, h5, -, h7, -, h9, -⟩ :=
      (gemini_fallbacks_and_notes_failure 0
        ⟨some "", some "Minor", some 0, some []⟩).2 [] rfl
    exact ⟨a, h1, h5 rfl, h9 "Minor" rfl (by decide), h7 rfl⟩

end Melodyne
